import Mathlib

/-!
Verification development for the Text2SQLAgent repository.

The repository wires a small agent workflow (LangGraph `StateGraph`) that
turns a natural-language question into a SQL query: list tables, fetch
schema, generate a query, check it, run it, loop.  We shallowly embed the
node functions of `text2sql_agent.py` (`list_tables`, `call_get_schema`,
`generate_query`, `check_query`, `should_continue`), the graph wiring of
`create_sql_agent`, and the schema and seeding logic of
`database_setup.py`, and prove the specification's claims about them.

The hosted language model is an external dependency; we model it as an
opaque function from (bound tools, tool choice, message history) to a
message, and express the API contract "`tool_choice=\"any\"` forces at
least one tool call" as an explicit predicate on the model.
-/

namespace Text2SQL

/-- A structured tool-call request as emitted by the model or constructed
by hand in `list_tables`: a tool name, an argument map, and an id
(`"type": "tool_call"` is carried verbatim from the source dict). -/
structure ToolCall where
  name : String
  args : List (String × String)
  id : String
  type : String := "tool_call"
  deriving DecidableEq

/-- Message roles used in the agent: system and user prompts, AI (model)
messages, and tool-result messages. -/
inductive Role where
  | system
  | user
  | ai
  | tool
  deriving DecidableEq

/-- A chat message: role, text content, the tool calls attached to it
(empty for a plain answer), and the framework-assigned message id. -/
structure Message where
  role : Role
  content : String
  tool_calls : List ToolCall := []
  id : String := ""
  deriving DecidableEq

/-- The workflow state of `MessagesState`: the accumulated message
history. -/
def MessagesState := List Message

/-- Lookup of a key in a tool call's argument map
(`tool_call["args"]["query"]` in the source). -/
def lookupArg (args : List (String × String)) (k : String) : Option String :=
  (args.find? (fun p => p.1 = k)).map (fun p => p.2)

/-- Tool-choice mode passed to `bind_tools`: `auto` (default, the model
may answer plainly) or `any` (a tool call is forced). -/
inductive ToolChoice where
  | auto
  | any
  deriving DecidableEq

/-- The opaque hosted language model: given the names of the bound tools,
the tool-choice mode, and a message history, produce one AI message. -/
structure LLM where
  invoke : List String → ToolChoice → List Message → Message

/-- The tool-calling API contract: when a tool call is forced
(`tool_choice="any"`), the returned message carries at least one tool
call.  The node functions of the agent rely on this contract of the
external model API. -/
def RespectsForcedToolChoice (llm : LLM) : Prop :=
  ∀ tools msgs, (llm.invoke tools ToolChoice.any msgs).tool_calls ≠ []

/-- The nodes added to the `StateGraph` in `create_sql_agent`, plus the
distinguished `START` vertex. -/
inductive Node where
  | START
  | list_tables
  | call_get_schema
  | get_schema
  | generate_query
  | check_query
  | run_query
  deriving DecidableEq, Fintype

/-- Target of a routing decision: either the distinguished `END` vertex
or a named node. -/
inductive Target where
  | END
  | goto (n : Node)
  deriving DecidableEq

/-- The `should_continue` router of `create_sql_agent`: reads the last
message of the state; if it has no tool calls the workflow ends,
otherwise it routes to `check_query`.  `none` models the Python
`IndexError` on an empty history. -/
def should_continue (state : MessagesState) : Option Target :=
  (List.getLast? state).map
    (fun last => if last.tool_calls = [] then Target.END else Target.goto Node.check_query)

/-- The nodes added by the six `builder.add_node` calls of
`create_sql_agent`, in source order. -/
def graph_nodes : List Node :=
  [Node.list_tables, Node.call_get_schema, Node.get_schema,
   Node.generate_query, Node.check_query, Node.run_query]

/-- The fixed edges added by the six `builder.add_edge` calls of
`create_sql_agent`, in source order. -/
def fixed_edges : List (Node × Node) :=
  [(Node.START, Node.list_tables),
   (Node.list_tables, Node.call_get_schema),
   (Node.call_get_schema, Node.get_schema),
   (Node.get_schema, Node.generate_query),
   (Node.check_query, Node.run_query),
   (Node.run_query, Node.generate_query)]

/-- The sources of conditional edges: the single
`builder.add_conditional_edges("generate_query", should_continue)`
call. -/
def conditional_edge_sources : List Node := [Node.generate_query]

/-- The fixed tool-call dict built inside `list_tables`. -/
def list_tables_tool_call : ToolCall :=
  { name := "sql_db_list_tables", args := [], id := "list_tables_call", type := "tool_call" }

/-- The `list_tables` node of `create_sql_agent`, parameterised by the
toolkit's `sql_db_list_tables` tool (an external function from a tool
call to a tool-result message).  It builds the fixed tool-call message,
invokes the tool on the fixed call, and returns the three messages
`[tool_call_message, tool_message, response]`. -/
def list_tables (list_tables_tool : ToolCall → Message) (_state : MessagesState) :
    List Message :=
  let tool_call_message : Message :=
    { role := Role.ai, content := "", tool_calls := [list_tables_tool_call] }
  let tool_message := list_tables_tool list_tables_tool_call
  let response : Message :=
    { role := Role.ai, content := "Available tables: " ++ tool_message.content }
  [tool_call_message, tool_message, response]

/-- The `call_get_schema` node: binds only the `sql_db_schema` tool with
`tool_choice="any"` and invokes the model on the state's messages. -/
def call_get_schema (llm : LLM) (state : MessagesState) : List Message :=
  [llm.invoke ["sql_db_schema"] ToolChoice.any state]

/-- The system prompt of `generate_query`, an f-string over the database
dialect (reproduced verbatim, including the source's indentation). -/
def generate_query_system_prompt (dialect : String) : String :=
  "\n        You are an agent designed to interact with a SQL database.\n        Given an input question, create a syntactically correct " ++ dialect ++ " query to run,\n        then look at the results of the query and return the answer. Unless the user\n        specifies a specific number of examples they wish to obtain, always limit your\n        query to at most 5 results.\n\n        You can order the results by a relevant column to return the most interesting\n        examples in the database. Never query for all the columns from a specific table,\n        only ask for the relevant columns given the question.\n\n        DO NOT make any DML statements (INSERT, UPDATE, DELETE, DROP etc.) to the database.\n        "

/-- The `generate_query` node: binds only the `sql_db_query` tool without
forcing a tool call, and invokes the model on the system prompt followed
by the state's messages. -/
def generate_query (llm : LLM) (dialect : String) (state : MessagesState) : List Message :=
  let system_message : Message :=
    { role := Role.system, content := generate_query_system_prompt dialect }
  [llm.invoke ["sql_db_query"] ToolChoice.auto (system_message :: state)]

/-- The system prompt of `check_query`, an f-string over the database
dialect (reproduced verbatim, including the source's indentation). -/
def check_query_system_prompt (dialect : String) : String :=
  "\n        You are a SQL expert with a strong attention to detail.\n        Double check the " ++ dialect ++ " query for common mistakes, including:\n        - Using NOT IN with NULL values\n        - Using UNION when UNION ALL should have been used\n        - Using BETWEEN for exclusive ranges\n        - Data type mismatch in predicates\n        - Properly quoting identifiers\n        - Using the correct number of arguments for functions\n        - Casting to the correct data type\n        - Using the proper columns for joins\n\n        If there are any of the above mistakes, rewrite the query. If there are no mistakes,\n        just reproduce the original query.\n\n        You will call the appropriate tool to execute the query after running this check.\n        "

/-- The `check_query` node: reads the first tool call of the state's last
message and its `"query"` argument (each lookup fallible, modelling the
Python `IndexError`/`KeyError`), invokes the model — bound to only the
`sql_db_query` tool with `tool_choice="any"` — on exactly the system
prompt and an artificial user message holding the proposed query, and
returns the response with its id overwritten by the last message's id. -/
def check_query (llm : LLM) (dialect : String) (state : MessagesState) :
    Option (List Message) := do
  let last ← List.getLast? state
  let tool_call ← last.tool_calls.head?
  let q ← lookupArg tool_call.args "query"
  let system_message : Message :=
    { role := Role.system, content := check_query_system_prompt dialect }
  let user_message : Message := { role := Role.user, content := q }
  let response := llm.invoke ["sql_db_query"] ToolChoice.any [system_message, user_message]
  pure [{ response with id := last.id }]

/-- Decides whether `pat` is a prefix of `txt` (character lists). -/
def charPrefix : List Char → List Char → Bool
  | [], _ => true
  | _ :: _, [] => false
  | a :: xs, b :: ys => a = b && charPrefix xs ys

/-- Decides whether `pat` occurs as a contiguous substring of `txt`
(character lists). -/
def charSub (pat : List Char) : List Char → Bool
  | [] => charPrefix pat []
  | c :: ts => charPrefix pat (c :: ts) || charSub pat ts

/-- Decides whether `pat` occurs as a contiguous substring of `s`. -/
def containsText (s pat : String) : Bool :=
  charSub pat.toList s.toList

/-- Models the framework's `add_messages` reducer on `MessagesState`: an
incoming message whose id matches an existing message replaces that
message in place; otherwise it is appended to the history. -/
def upsertMessage (history : List Message) (m : Message) : List Message :=
  if history.any (fun h => h.id = m.id) then
    history.map (fun h => if h.id = m.id then m else h)
  else
    history ++ [m]

/-- Models the framework's `add_messages` reducer folded over a list of
incoming messages (the `{"messages": [...]}` delta returned by a node). -/
def add_messages (history new : List Message) : List Message :=
  List.foldl upsertMessage history new

/-- A column declaration of `database_setup.py`: name, SQL type, and the
constraints the `Column(...)` call carries.  SQLAlchemy defaults apply:
`nullable=True` and `unique=False` unless stated, `nullable=False` on
primary-key columns; no column in the source declares `unique=True`,
`nullable=False`, or a `CheckConstraint`. -/
structure ColumnDef where
  name : String
  sqltype : String
  primary_key : Bool := false
  autoincrement : Bool := false
  foreign_key : Option (String × String) := none
  nullable : Bool := true
  unique : Bool := false
  has_check : Bool := false
  deriving DecidableEq

/-- A mapped table: its `__tablename__` and its column declarations. -/
structure TableDef where
  tablename : String
  columns : List ColumnDef
  deriving DecidableEq

/-- The `Employee` model of `database_setup.py`. -/
def Employee_table : TableDef :=
  { tablename := "employees",
    columns :=
      [{ name := "employee_id", sqltype := "Integer", primary_key := true,
         autoincrement := true, nullable := false },
       { name := "first_name", sqltype := "String(50)" },
       { name := "last_name", sqltype := "String(50)" },
       { name := "email", sqltype := "String(100)" },
       { name := "department", sqltype := "String(50)" },
       { name := "salary", sqltype := "Numeric(10,2)" },
       { name := "hire_date", sqltype := "Date" }] }

/-- The `Product` model of `database_setup.py`. -/
def Product_table : TableDef :=
  { tablename := "products",
    columns :=
      [{ name := "product_id", sqltype := "Integer", primary_key := true,
         autoincrement := true, nullable := false },
       { name := "product_name", sqltype := "String(100)" },
       { name := "category", sqltype := "String(50)" },
       { name := "price", sqltype := "Numeric(10,2)" },
       { name := "stock_quantity", sqltype := "Integer" }] }

/-- The `Sale` model of `database_setup.py`, with its two
`ForeignKey` declarations. -/
def Sale_table : TableDef :=
  { tablename := "sales",
    columns :=
      [{ name := "sale_id", sqltype := "Integer", primary_key := true,
         autoincrement := true, nullable := false },
       { name := "employee_id", sqltype := "Integer",
         foreign_key := some ("employees", "employee_id") },
       { name := "product_id", sqltype := "Integer",
         foreign_key := some ("products", "product_id") },
       { name := "quantity", sqltype := "Integer" },
       { name := "sale_date", sqltype := "Date" },
       { name := "total_amount", sqltype := "Numeric(10,2)" }] }

/-- The declarative base's tables, in source order. -/
def database_schema : List TableDef := [Employee_table, Product_table, Sale_table]

/-- A data column is a non-primary-key column (primary keys carry the
implicit uniqueness/non-null of the key itself). -/
def dataColumn (c : ColumnDef) : Bool := !c.primary_key

/-- A row of `employees` as inserted by the seeder (the primary key is
autoincrement-assigned and not part of the constructor call).  `Numeric`
amounts are held in cents. -/
structure EmployeeRow where
  first_name : String
  last_name : String
  email : String
  department : String
  salary_cents : Int
  hire_date : Nat × Nat × Nat
  deriving DecidableEq

/-- A row of `products` as inserted by the seeder. -/
structure ProductRow where
  product_name : String
  category : String
  price_cents : Int
  stock_quantity : Int
  deriving DecidableEq

/-- A row of `sales` as inserted by the seeder. -/
structure SaleRow where
  employee_id : Int
  product_id : Int
  quantity : Int
  sale_date : Nat × Nat × Nat
  total_amount_cents : Int
  deriving DecidableEq

/-- The five sample employees of `create_mock_tables`. -/
def sample_employees : List EmployeeRow :=
  [⟨"John", "Doe", "john.doe@company.com", "Sales", 5000000, (2022, 1, 15)⟩,
   ⟨"Jane", "Smith", "jane.smith@company.com", "Marketing", 5500000, (2021, 8, 20)⟩,
   ⟨"Mike", "Johnson", "mike.johnson@company.com", "Sales", 5200000, (2023, 3, 10)⟩,
   ⟨"Sarah", "Wilson", "sarah.wilson@company.com", "Engineering", 7500000, (2020, 11, 5)⟩,
   ⟨"David", "Brown", "david.brown@company.com", "Sales", 4800000, (2023, 6, 12)⟩]

/-- The five sample products of `create_mock_tables`. -/
def sample_products : List ProductRow :=
  [⟨"Laptop Pro", "Electronics", 129999, 50⟩,
   ⟨"Wireless Mouse", "Electronics", 2999, 200⟩,
   ⟨"Office Chair", "Furniture", 19999, 75⟩,
   ⟨"Standing Desk", "Furniture", 39999, 30⟩,
   ⟨"Monitor 4K", "Electronics", 29999, 80⟩]

/-- The seven sample sales of `create_mock_tables`. -/
def sample_sales : List SaleRow :=
  [⟨1, 1, 2, (2024, 1, 15), 259998⟩,
   ⟨1, 2, 5, (2024, 1, 16), 14995⟩,
   ⟨3, 3, 1, (2024, 1, 17), 19999⟩,
   ⟨5, 1, 1, (2024, 1, 18), 129999⟩,
   ⟨1, 5, 3, (2024, 1, 19), 89997⟩,
   ⟨3, 4, 2, (2024, 1, 20), 79998⟩,
   ⟨5, 2, 10, (2024, 1, 21), 29990⟩]

/-- The contents of the three tables. -/
structure DBState where
  employees : List EmployeeRow
  products : List ProductRow
  sales : List SaleRow
  deriving DecidableEq

/-- A SQLAlchemy session over a database: the committed contents plus
the rows added to the session but not yet committed. -/
structure Session where
  committed : DBState
  pending_employees : List EmployeeRow
  pending_products : List ProductRow
  pending_sales : List SaleRow
  deriving DecidableEq

/-- What a query on `Employee` sees inside the session (committed rows
plus pending inserts, which autoflush makes visible). -/
def Session.viewEmployees (s : Session) : List EmployeeRow :=
  s.committed.employees ++ s.pending_employees

/-- What a query on `Product` sees inside the session. -/
def Session.viewProducts (s : Session) : List ProductRow :=
  s.committed.products ++ s.pending_products

/-- What a query on `Sale` sees inside the session. -/
def Session.viewSales (s : Session) : List SaleRow :=
  s.committed.sales ++ s.pending_sales

/-- `Session(bind=engine)`: a fresh session with no pending changes. -/
def openSession (db : DBState) : Session := ⟨db, [], [], []⟩

/-- `commit`: pending inserts become committed contents. -/
def Session.commit (s : Session) : Session :=
  ⟨⟨s.viewEmployees, s.viewProducts, s.viewSales⟩, [], [], []⟩

/-- `rollback`: pending inserts are discarded; committed contents are
untouched. -/
def Session.rollback (s : Session) : Session := ⟨s.committed, [], [], []⟩

/-- The employees block of `create_mock_tables`: insert the sample
employees only when `session.query(Employee).count() == 0`. -/
def seedEmployees (s : Session) : Session :=
  if s.viewEmployees.length = 0 then
    { s with pending_employees := s.pending_employees ++ sample_employees }
  else s

/-- The products block of `create_mock_tables`: insert the sample
products only when `session.query(Product).count() == 0`. -/
def seedProducts (s : Session) : Session :=
  if s.viewProducts.length = 0 then
    { s with pending_products := s.pending_products ++ sample_products }
  else s

/-- The sales block of `create_mock_tables`: insert the sample sales
only when `session.query(Sale).count() == 0`. -/
def seedSales (s : Session) : Session :=
  if s.viewSales.length = 0 then
    { s with pending_sales := s.pending_sales ++ sample_sales }
  else s

/-- A point in the `try` block of `create_mock_tables` at which an
exception may be raised (any raise sends control to the `except` branch,
which rolls the session back). -/
inductive FailPoint where
  | beforeEmployees
  | beforeProducts
  | beforeSales
  | beforeCommit
  deriving DecidableEq

/-- `create_mock_tables` over a committed database state, with an
optional injected exception point: each table's sample rows are inserted
only when that table is empty, then the session is committed; an
exception anywhere before the commit triggers `session.rollback()` and
the committed state is returned unchanged. -/
def create_mock_tables (db : DBState) (failure : Option FailPoint) : DBState :=
  let s0 := openSession db
  if failure = some FailPoint.beforeEmployees then s0.rollback.committed else
  let s1 := seedEmployees s0
  if failure = some FailPoint.beforeProducts then s1.rollback.committed else
  let s2 := seedProducts s1
  if failure = some FailPoint.beforeSales then s2.rollback.committed else
  let s3 := seedSales s2
  if failure = some FailPoint.beforeCommit then s3.rollback.committed else
  s3.commit.committed

/-- Example tool call: a model proposal to run a query. -/
def exToolCall : ToolCall :=
  { name := "sql_db_query", args := [("query", "SELECT 1")], id := "tc1" }

/-- Example AI message carrying a tool-call proposal. -/
def exMsgTool : Message :=
  { role := Role.ai, content := "", tool_calls := [exToolCall], id := "m1" }

/-- Example AI message that is a plain final answer. -/
def exMsgPlain : Message :=
  { role := Role.ai, content := "There are five employees.", id := "m0" }

/-- A fixed AI message carrying one tool call, used to build concrete
models of the opaque language model. -/
def forcedToolCallMessage : Message :=
  { role := Role.ai, content := "",
    tool_calls := [{ name := "sql_db_query", args := [("query", "SELECT 1")], id := "forced" }],
    id := "llmmsg" }

/-- A concrete model that always answers with a tool call. -/
def alwaysToolCallLLM : LLM := ⟨fun _ _ _ => forcedToolCallMessage⟩

/-- A concrete model that emits a tool call only when one is forced, and
otherwise answers in plain language. -/
def plainUnlessForcedLLM : LLM :=
  ⟨fun _ choice _ =>
    if choice = ToolChoice.any then forcedToolCallMessage
    else { role := Role.ai, content := "The answer is 42.", id := "llmmsg" }⟩

/-! Helper lemmas shared by the claim theorems. -/

lemma alwaysToolCallLLM_forced : RespectsForcedToolChoice alwaysToolCallLLM := by
  intro tools msgs
  simp [alwaysToolCallLLM, forcedToolCallMessage]

lemma plainUnlessForcedLLM_forced : RespectsForcedToolChoice plainUnlessForcedLLM := by
  intro tools msgs
  simp [plainUnlessForcedLLM, forcedToolCallMessage]

lemma charSub_append (pat ys : List Char) (xs : List Char)
    (h : charSub pat ys = true) : charSub pat (xs ++ ys) = true := by
  induction xs with
  | nil => simpa using h
  | cons c cs ih =>
    simp only [List.cons_append, charSub, Bool.or_eq_true]
    exact Or.inr ih

lemma containsText_suffix (l1 mid l2 pat : String)
    (h : containsText l2 pat = true) :
    containsText (l1 ++ mid ++ l2) pat = true := by
  unfold containsText at h ⊢
  have hl : (l1 ++ mid ++ l2).toList = (l1.toList ++ mid.toList) ++ l2.toList := by
    simp [String.toList, String.data_append]
  rw [hl]
  exact charSub_append _ _ _ h

/-! Theorems settling the specification's claims. -/

/-- C1: the conditional edge after `generate_query`, decided by
`should_continue`, ends the workflow exactly when the latest message has
no tool calls, and otherwise routes to `check_query`; so the
generate/check/execute loop continues exactly while the model's latest
output carries a tool-call request. -/
theorem conditional_edge_ends_iff_no_tool_calls (state : MessagesState) (last : Message)
    (h : List.getLast? state = some last) :
    conditional_edge_sources = [Node.generate_query] ∧
    (should_continue state = some Target.END ↔ last.tool_calls = []) ∧
    (should_continue state = some (Target.goto Node.check_query) ↔ last.tool_calls ≠ []) := by
  refine ⟨rfl, ?_, ?_⟩ <;> unfold should_continue <;> rw [h] <;>
    by_cases hc : last.tool_calls = [] <;> simp [hc]

/-- C1 witness: the router at a plain-answer state and at a tool-call
state. -/
theorem conditional_edge_ends_iff_no_tool_calls_witness :
    should_continue [exMsgPlain] = some Target.END ∧
    should_continue [exMsgTool] = some (Target.goto Node.check_query) :=
  ⟨(conditional_edge_ends_iff_no_tool_calls [exMsgPlain] exMsgPlain rfl).2.1.mpr rfl,
   (conditional_edge_ends_iff_no_tool_calls [exMsgTool] exMsgTool rfl).2.2.mpr (by decide)⟩

/-- C2 counterexample: the graph built by `create_sql_agent` has six
nodes (`list_tables`, `call_get_schema`, `get_schema`, `generate_query`,
`check_query`, `run_query`), not five as claimed. -/
theorem graph_nodes_count_not_five : ¬ (graph_nodes.length = 5) := by decide

/-- C2 (amended): the compiled agent graph consists of exactly six
distinct nodes and exactly one conditional edge, all other edges being
fixed. -/
theorem graph_six_nodes_one_conditional_edge :
    graph_nodes.length = 6 ∧ graph_nodes.Nodup ∧
    conditional_edge_sources.length = 1 ∧
    conditional_edge_sources = [Node.generate_query] ∧
    fixed_edges.length = 6 := by decide

/-- C3: the workflow order is fixed: START → `list_tables` →
`call_get_schema` → `get_schema` → `generate_query`; `check_query` is
always followed by `run_query`; `run_query` is always followed by
`generate_query` (the loop re-enters at query generation, never at
schema discovery); and none of these nodes is the source of a
conditional edge. -/
theorem workflow_node_order_fixed :
    (∀ n, (Node.START, n) ∈ fixed_edges ↔ n = Node.list_tables) ∧
    (∀ n, (Node.list_tables, n) ∈ fixed_edges ↔ n = Node.call_get_schema) ∧
    (∀ n, (Node.call_get_schema, n) ∈ fixed_edges ↔ n = Node.get_schema) ∧
    (∀ n, (Node.get_schema, n) ∈ fixed_edges ↔ n = Node.generate_query) ∧
    (∀ n, (Node.check_query, n) ∈ fixed_edges ↔ n = Node.run_query) ∧
    (∀ n, (Node.run_query, n) ∈ fixed_edges ↔ n = Node.generate_query) ∧
    Node.START ∉ conditional_edge_sources ∧
    Node.list_tables ∉ conditional_edge_sources ∧
    Node.call_get_schema ∉ conditional_edge_sources ∧
    Node.get_schema ∉ conditional_edge_sources ∧
    Node.check_query ∉ conditional_edge_sources ∧
    Node.run_query ∉ conditional_edge_sources := by decide

set_option maxRecDepth 4096 in
/-- C4: `check_query` extracts the proposed query from the first tool
call of the last message and invokes the model on exactly two messages —
the fixed checklist system prompt and a user message holding the query —
with a tool call forced; under the forcing contract its output message
always carries a tool-call request, and the system prompt enumerates all
eight checklist items. -/
theorem check_query_two_message_forced_invocation (llm : LLM) (dialect : String)
    (state : MessagesState) (last : Message) (tc : ToolCall) (q : String)
    (hllm : RespectsForcedToolChoice llm)
    (hlast : List.getLast? state = some last)
    (htc : last.tool_calls.head? = some tc)
    (hq : lookupArg tc.args "query" = some q) :
    check_query llm dialect state =
      some [{ llm.invoke ["sql_db_query"] ToolChoice.any
                [{ role := Role.system, content := check_query_system_prompt dialect },
                 { role := Role.user, content := q }] with id := last.id }] ∧
    (∀ out, check_query llm dialect state = some out → ∀ m ∈ out, m.tool_calls ≠ []) ∧
    containsText (check_query_system_prompt dialect) "- Using NOT IN with NULL values" = true ∧
    containsText (check_query_system_prompt dialect) "- Using UNION when UNION ALL should have been used" = true ∧
    containsText (check_query_system_prompt dialect) "- Using BETWEEN for exclusive ranges" = true ∧
    containsText (check_query_system_prompt dialect) "- Data type mismatch in predicates" = true ∧
    containsText (check_query_system_prompt dialect) "- Properly quoting identifiers" = true ∧
    containsText (check_query_system_prompt dialect) "- Using the correct number of arguments for functions" = true ∧
    containsText (check_query_system_prompt dialect) "- Casting to the correct data type" = true ∧
    containsText (check_query_system_prompt dialect) "- Using the proper columns for joins" = true := by
  have heq : check_query llm dialect state =
      some [{ llm.invoke ["sql_db_query"] ToolChoice.any
                [{ role := Role.system, content := check_query_system_prompt dialect },
                 { role := Role.user, content := q }] with id := last.id }] := by
    simp [check_query, hlast, htc, hq]
  refine ⟨heq, ?_, ?_, ?_, ?_, ?_, ?_, ?_, ?_, ?_⟩
  · intro out hout m hm
    rw [heq] at hout
    cases hout
    simp only [List.mem_singleton] at hm
    subst hm
    exact hllm _ _
  all_goals
    unfold check_query_system_prompt
    exact containsText_suffix _ _ _ _ (by decide)

/-- C4 witness: the invocation equality at a concrete model, dialect and
state. -/
theorem check_query_two_message_forced_invocation_witness :
    check_query alwaysToolCallLLM "postgresql" [exMsgTool] =
      some [{ alwaysToolCallLLM.invoke ["sql_db_query"] ToolChoice.any
                [{ role := Role.system, content := check_query_system_prompt "postgresql" },
                 { role := Role.user, content := "SELECT 1" }] with id := exMsgTool.id }] :=
  (check_query_two_message_forced_invocation alwaysToolCallLLM "postgresql" [exMsgTool]
    exMsgTool exToolCall "SELECT 1" alwaysToolCallLLM_forced rfl rfl rfl).1

/-- C5: `call_get_schema` binds only `sql_db_schema` with a forced tool
choice, so under the forcing contract its output always carries a
tool-call request; `generate_query` binds only `sql_db_query` without
forcing, and its output may carry a tool-call request or be a plain
answer, depending on the model. -/
theorem schema_fetcher_forced_query_generator_unforced (llm : LLM) (dialect : String)
    (state : MessagesState) (hllm : RespectsForcedToolChoice llm) :
    call_get_schema llm state = [llm.invoke ["sql_db_schema"] ToolChoice.any state] ∧
    (∀ m ∈ call_get_schema llm state, m.tool_calls ≠ []) ∧
    generate_query llm dialect state =
      [llm.invoke ["sql_db_query"] ToolChoice.auto
        ({ role := Role.system, content := generate_query_system_prompt dialect } :: state)] ∧
    (∃ llm1, RespectsForcedToolChoice llm1 ∧
       ∀ m ∈ generate_query llm1 dialect state, m.tool_calls ≠ []) ∧
    (∃ llm2, RespectsForcedToolChoice llm2 ∧
       ∀ m ∈ generate_query llm2 dialect state, m.tool_calls = []) := by
  refine ⟨rfl, ?_, rfl,
    ⟨alwaysToolCallLLM, alwaysToolCallLLM_forced, ?_⟩,
    ⟨plainUnlessForcedLLM, plainUnlessForcedLLM_forced, ?_⟩⟩
  · intro m hm
    simp only [call_get_schema, List.mem_singleton] at hm
    subst hm
    exact hllm _ _
  · intro m hm
    simp only [generate_query, List.mem_singleton] at hm
    subst hm
    simp [alwaysToolCallLLM, forcedToolCallMessage]
  · intro m hm
    simp only [generate_query, List.mem_singleton] at hm
    subst hm
    simp [plainUnlessForcedLLM]

/-- C5 witness: the schema fetcher's output at a concrete forced model
carries a tool call. -/
theorem schema_fetcher_forced_witness :
    call_get_schema alwaysToolCallLLM [] = [forcedToolCallMessage] ∧
    forcedToolCallMessage.tool_calls ≠ [] := by
  have h := schema_fetcher_forced_query_generator_unforced alwaysToolCallLLM "postgresql" []
    alwaysToolCallLLM_forced
  exact ⟨h.1, h.2.1 forcedToolCallMessage (by simp [call_get_schema, alwaysToolCallLLM])⟩

/-- C6: `list_tables` emits the identical fixed tool-call request for
any two input states — tool name `sql_db_list_tables`, empty arguments,
fixed id — and returns exactly three messages: the forced tool-call
message, the tool result, and a summary message listing the table
names. -/
theorem list_tables_state_independent (list_tables_tool : ToolCall → Message)
    (s1 s2 : MessagesState) :
    list_tables list_tables_tool s1 = list_tables list_tables_tool s2 ∧
    (list_tables list_tables_tool s1).length = 3 ∧
    list_tables list_tables_tool s1 =
      [{ role := Role.ai, content := "", tool_calls := [list_tables_tool_call] },
       list_tables_tool list_tables_tool_call,
       { role := Role.ai,
         content := "Available tables: " ++ (list_tables_tool list_tables_tool_call).content }] ∧
    list_tables_tool_call.name = "sql_db_list_tables" ∧
    list_tables_tool_call.args = [] ∧
    list_tables_tool_call.id = "list_tables_call" :=
  ⟨rfl, rfl, rfl, rfl, rfl, rfl⟩

/-- C7: the schema has exactly the three tables employees, products and
sales; `sales` carries exactly two foreign keys, to
`employees.employee_id` and `products.product_id`, the other tables
carry none; and no non-primary-key column of any table carries a
uniqueness, non-null, or check constraint, nor any foreign key beyond
those two. -/
theorem data_model_three_entities_fk_only :
    database_schema.length = 3 ∧
    database_schema.map TableDef.tablename = ["employees", "products", "sales"] ∧
    Sale_table.columns.filterMap ColumnDef.foreign_key =
      [("employees", "employee_id"), ("products", "product_id")] ∧
    Employee_table.columns.filterMap ColumnDef.foreign_key = [] ∧
    Product_table.columns.filterMap ColumnDef.foreign_key = [] ∧
    (∀ t ∈ database_schema, ∀ c ∈ t.columns, dataColumn c = true →
      c.unique = false ∧ c.nullable = true ∧ c.has_check = false) := by
  decide

/-- C8: when the conditional edge routed to `check_query` (so the last
message's tool-call list is non-empty) and every tool call of that
message carries a `"query"` argument, the two fallible lookups inside
`check_query` succeed: it returns a value, never the error branch. -/
theorem check_query_lookups_safe (llm : LLM) (dialect : String)
    (state : MessagesState) (last : Message)
    (hlast : List.getLast? state = some last)
    (hroute : should_continue state = some (Target.goto Node.check_query))
    (hargs : ∀ tc ∈ last.tool_calls, (lookupArg tc.args "query").isSome = true) :
    (check_query llm dialect state).isSome = true := by
  unfold should_continue at hroute
  rw [hlast] at hroute
  by_cases hc : last.tool_calls = []
  · simp [hc] at hroute
  · obtain ⟨tc, ts, htc⟩ : ∃ tc ts, last.tool_calls = tc :: ts := by
      cases h : last.tool_calls with
      | nil => exact absurd h hc
      | cons a l => exact ⟨a, l, rfl⟩
    have hhead : last.tool_calls.head? = some tc := by rw [htc]; rfl
    have hmem : tc ∈ last.tool_calls := by rw [htc]; exact List.mem_cons_self _ _
    obtain ⟨q, hq⟩ := Option.isSome_iff_exists.mp (hargs tc hmem)
    simp [check_query, hlast, hhead, hq]

/-- C8 witness: the lookups succeed at a concrete routed state. -/
theorem check_query_lookups_safe_witness :
    (check_query plainUnlessForcedLLM "mysql" [exMsgTool]).isSome = true :=
  check_query_lookups_safe plainUnlessForcedLLM "mysql" [exMsgTool] exMsgTool
    rfl (by decide) (by decide)

lemma eq_dropLast_concat_getLast {α : Type} (l : List α) (x : α)
    (h : List.getLast? l = some x) : l = l.dropLast ++ [x] := by
  induction l with
  | nil => simp at h
  | cons a l ih =>
    cases l with
    | nil =>
      simp only [List.getLast?_singleton, Option.some.injEq] at h
      subst h
      rfl
    | cons b m =>
      rw [List.getLast?_cons_cons] at h
      have h2 := ih h
      conv_lhs => rw [h2]
      rfl

lemma map_replace_noop (r : Message) (xs : List Message)
    (h : ∀ m ∈ xs, m.id ≠ r.id) :
    xs.map (fun mm => if mm.id = r.id then r else mm) = xs := by
  induction xs with
  | nil => rfl
  | cons a l ih =>
    simp only [List.map_cons]
    rw [if_neg (h a (List.mem_cons_self _ _)),
      ih (fun m hm => h m (List.mem_cons_of_mem _ hm))]

lemma upsert_concat (xs : List Message) (last r : Message)
    (hid : ∀ m ∈ xs, m.id ≠ last.id) (hr : r.id = last.id) :
    upsertMessage (xs ++ [last]) r = xs ++ [r] := by
  unfold upsertMessage
  have hany : (xs ++ [last]).any (fun h => h.id = r.id) = true := by
    simp [List.any_append, hr]
  rw [if_pos hany, List.map_append, List.map_cons, List.map_nil,
    if_pos (hr.symm : last.id = r.id),
    map_replace_noop r xs (fun m hm => hr ▸ hid m hm)]

/-- C9: `check_query` returns a single message whose id equals the last
message's id, so the framework's replace-by-id merge replaces the
original proposal with the revised one instead of appending a second
proposal, leaving every earlier message of the history unchanged. -/
theorem check_query_same_id_replaces (llm : LLM) (dialect : String)
    (state : MessagesState) (last : Message) (out : List Message)
    (hlast : List.getLast? state = some last)
    (hout : check_query llm dialect state = some out)
    (hid : ∀ m ∈ state.dropLast, m.id ≠ last.id) :
    ∃ r, out = [r] ∧ r.id = last.id ∧
      add_messages state out = state.dropLast ++ [r] := by
  cases htc : last.tool_calls.head? with
  | none => simp [check_query, hlast, htc] at hout
  | some tc =>
    cases hq : lookupArg tc.args "query" with
    | none => simp [check_query, hlast, htc, hq] at hout
    | some q =>
      have heq : check_query llm dialect state =
          some [{ llm.invoke ["sql_db_query"] ToolChoice.any
                    [{ role := Role.system, content := check_query_system_prompt dialect },
                     { role := Role.user, content := q }] with id := last.id }] := by
        simp [check_query, hlast, htc, hq]
      rw [heq] at hout
      injection hout with hout
      subst hout
      refine ⟨_, rfl, rfl, ?_⟩
      have hstate := eq_dropLast_concat_getLast state last hlast
      calc add_messages state _
          = add_messages (state.dropLast ++ [last]) _ := by rw [← hstate]
        _ = state.dropLast ++ _ := by
            unfold add_messages
            simp only [List.foldl_cons, List.foldl_nil]
            exact upsert_concat _ _ _ hid rfl

/-- C9 witness: the merge at a concrete two-message history. -/
theorem check_query_same_id_replaces_witness :
    ∃ r, [{ forcedToolCallMessage with id := exMsgTool.id }] = [r] ∧
      r.id = exMsgTool.id ∧
      add_messages [exMsgPlain, exMsgTool]
          [{ forcedToolCallMessage with id := exMsgTool.id }] =
        [exMsgPlain, exMsgTool].dropLast ++ [r] :=
  check_query_same_id_replaces plainUnlessForcedLLM "postgresql"
    [exMsgPlain, exMsgTool] exMsgTool
    [{ forcedToolCallMessage with id := exMsgTool.id }]
    rfl (by decide) (by decide)

lemma seedEmployees_committed (s : Session) :
    (seedEmployees s).committed = s.committed := by
  unfold seedEmployees
  split <;> rfl

lemma seedProducts_committed (s : Session) :
    (seedProducts s).committed = s.committed := by
  unfold seedProducts
  split <;> rfl

lemma seedSales_committed (s : Session) :
    (seedSales s).committed = s.committed := by
  unfold seedSales
  split <;> rfl

lemma create_mock_tables_none_eq (db : DBState) :
    create_mock_tables db none =
      ⟨if db.employees.length = 0 then sample_employees else db.employees,
       if db.products.length = 0 then sample_products else db.products,
       if db.sales.length = 0 then sample_sales else db.sales⟩ := by
  by_cases h1 : db.employees.length = 0 <;>
    by_cases h2 : db.products.length = 0 <;>
      by_cases h3 : db.sales.length = 0 <;>
        simp [create_mock_tables, openSession, seedEmployees, seedProducts, seedSales,
          Session.commit, Session.viewEmployees, Session.viewProducts, Session.viewSales,
          h1, h2, h3, List.length_eq_zero.mp, List.length_eq_zero]

/-- C10: seeding is idempotent — each table's sample rows are inserted
only when that table is empty, so a second successful run of
`create_mock_tables` changes nothing — and an exception at any point of
the seeding rolls the session back, leaving the committed database
unchanged. -/
theorem create_mock_tables_idempotent_and_rollback (db : DBState) :
    create_mock_tables (create_mock_tables db none) none = create_mock_tables db none ∧
    (create_mock_tables db none).employees =
      (if db.employees.length = 0 then sample_employees else db.employees) ∧
    (create_mock_tables db none).products =
      (if db.products.length = 0 then sample_products else db.products) ∧
    (create_mock_tables db none).sales =
      (if db.sales.length = 0 then sample_sales else db.sales) ∧
    (∀ f : FailPoint, create_mock_tables db (some f) = db) := by
  refine ⟨?_, ?_, ?_, ?_, ?_⟩
  · rw [create_mock_tables_none_eq db, create_mock_tables_none_eq]
    by_cases h1 : db.employees.length = 0 <;>
      by_cases h2 : db.products.length = 0 <;>
        by_cases h3 : db.sales.length = 0 <;>
          simp [h1, h2, h3, sample_employees, sample_products, sample_sales]
  · rw [create_mock_tables_none_eq db]
  · rw [create_mock_tables_none_eq db]
  · rw [create_mock_tables_none_eq db]
  · intro f
    cases f <;>
      simp [create_mock_tables, openSession, Session.rollback,
        seedEmployees_committed, seedProducts_committed, seedSales_committed]

end Text2SQL


